import Mathlib

/-!
Shallow embedding of the Quectel BG96 cellular-modem host driver
(`csrc/bg96_ifc.c`, `csrc/bg96.c` and the driver header) together with
proofs about its network-registration bookkeeping, socket table, ring
buffer, argument parser and GNSS conversion.

Machine integers of the C source are modelled as `Nat`/`Int` (overflow is
irrelevant for every property below), byte buffers as `List Char` or
`Nat → Nat`, and the fallible array indexing of the URC handlers as
`Option`-returning lookups.
-/

namespace BG96

/-! ## Constants from the driver header -/

/-- `MAX_SOCKS` (default 4, header line 5). -/
def MAX_SOCKS : Nat := 4

/-- `MAX_SOCK_RX_BUF` (256, header line 16): ring-buffer capacity. -/
def MAX_SOCK_RX_BUF : Nat := 256

/-- `MAX_UNACKED_DATA` (1500, header line 311). -/
def MAX_UNACKED_DATA : Nat := 1500

/-- `GS_REG_NOT` (header line 149). -/
def GS_REG_NOT : Nat := 0

/-- `GS_REG_OK` (header line 153); "keep order, so that >= OK is registered". -/
def GS_REG_OK : Nat := 4

/-- `GS_RAT_GSM` (header line 157). -/
def GS_RAT_GSM : Nat := 0x01

/-- `GS_RAT_GPRS` (header line 158). -/
def GS_RAT_GPRS : Nat := 0x02

/-- `GS_RAT_LTE` (header line 159). -/
def GS_RAT_LTE : Nat := 0x04

/-- `GS_RAT_LTE_M1` (header line 160). -/
def GS_RAT_LTE_M1 : Nat := 0x08

/-- `GS_RAT_LTE_NB1` (header line 161). -/
def GS_RAT_LTE_NB1 : Nat := 0x10

/-- Modelled from the spec: lwIP-style negative error codes of
`zerynth_sockets.h` (the header is not part of the sources; only the
names `ERR_CONN`, `ERR_IF`, `ERR_CLSD`, `ERR_TIMEOUT` appear in the C
files). Only their negativity and distinctness matter below. -/
def ERR_CONN : Int := -11

/-- Modelled from the spec: see `ERR_CONN`. -/
def ERR_IF : Int := -12

/-- Modelled from the spec: see `ERR_CONN`. -/
def ERR_CLSD : Int := -15

/-- Modelled from the spec: see `ERR_CONN`. -/
def ERR_TIMEOUT : Int := -3

/-! ## Network registration state (`GStatus` fields used by
`_gs_update_network_status`, bg96_ifc.c:3336) -/

/-- The slice of the global `GStatus` record touched by the
network-registration update: per-domain registration enums, the EPS
access technology, the RAT bitmask, LAC/CI strings, the aggregate
`registered` field and the registration-change timestamp. -/
structure NetStatus where
  gsm_status : Nat
  gprs_status : Nat
  eps_status : Nat
  eps_act : Nat
  tech : Nat
  lac : List Char
  ci : List Char
  registered : Nat
  registration_status_time : Nat
  deriving Repr, DecidableEq

/-- `_gs_update_network_status(s0,l0,s1,l1)` (bg96_ifc.c:3336-3397), run
at the end of every `+CREG`/`+CGREG`/`+CEREG` response or URC. `s0`/`s1`
are the LAC and CI argument slices (`none` models the C `NULL`), `now`
is `vosMillis()/1000`. -/
def updateNetworkStatus (s0 s1 : Option (List Char)) (now : Nat) (g : NetStatus) : NetStatus :=
  -- gs.tech = 0; then the three "|=" blocks
  let tech1 : Nat :=
    if GS_REG_OK ≤ g.eps_status then
      if g.eps_act = 8 then 0 ||| GS_RAT_LTE_M1
      else if g.eps_act = 9 then 0 ||| GS_RAT_LTE_NB1
      else 0 ||| GS_RAT_LTE
    else 0
  let tech2 : Nat := if GS_REG_OK ≤ g.gprs_status then tech1 ||| GS_RAT_GPRS else tech1
  let tech : Nat := if GS_REG_OK ≤ g.gsm_status then tech2 ||| GS_RAT_GSM else tech2
  -- if (gs.tech == 0) memset lac/ci; else if (s0 && s1 && l0>0 && l1>0) copy MIN(9,...)
  let lacci : List Char × List Char :=
    if tech = 0 then ([], [])
    else
      match s0, s1 with
      | some a, some b =>
        if 0 < a.length ∧ 0 < b.length then (a.take 9, b.take 9) else (g.lac, g.ci)
      | _, _ => (g.lac, g.ci)
  -- registered precedence: LTE bits, then GPRS bit, else GS_REG_NOT
  let registered : Nat :=
    if tech &&& (GS_RAT_LTE ||| GS_RAT_LTE_M1 ||| GS_RAT_LTE_NB1) ≠ 0 then g.eps_status
    else if tech &&& GS_RAT_GPRS ≠ 0 then g.gprs_status
    else GS_REG_NOT
  -- timestamp the transition across the GS_REG_OK threshold
  let t : Nat :=
    if GS_REG_OK ≤ registered ∧ g.registered < GS_REG_OK then now
    else if registered < GS_REG_OK ∧ GS_REG_OK ≤ g.registered then now
    else g.registration_status_time
  { g with
    tech := tech
    lac := lacci.1
    ci := lacci.2
    registered := registered
    registration_status_time := t }

/-- C1: after every run of `_gs_update_network_status` the aggregate
`registered` field equals the EPS registration state if EPS ≥ OK, else
the GPRS registration state if GPRS ≥ OK, else `GS_REG_NOT`, for every
combination of the three per-domain registration states. -/
theorem update_network_status_registered_precedence
    (s0 s1 : Option (List Char)) (now : Nat) (g : NetStatus) :
    (updateNetworkStatus s0 s1 now g).registered =
      if GS_REG_OK ≤ g.eps_status then g.eps_status
      else if GS_REG_OK ≤ g.gprs_status then g.gprs_status
      else GS_REG_NOT := by
  unfold updateNetworkStatus
  by_cases he : GS_REG_OK ≤ g.eps_status <;>
  by_cases hg : GS_REG_OK ≤ g.gprs_status <;>
  by_cases hm : GS_REG_OK ≤ g.gsm_status <;>
  by_cases h8 : g.eps_act = 8 <;>
  by_cases h9 : g.eps_act = 9 <;>
  simp +decide [he, hg, hm, h8, h9, GS_RAT_LTE, GS_RAT_LTE_M1, GS_RAT_LTE_NB1,
    GS_RAT_GPRS, GS_RAT_GSM]

/-- C2 (counterexample): the claimed equivalence "technology bitmask
non-empty iff `registered ≥ OK`" fails on the state where only GSM is
registered: after the update the bitmask is `GS_RAT_GSM` (non-empty)
while the aggregate `registered` is `GS_REG_NOT`. -/
theorem update_network_status_gsm_only_counterexample :
    ¬ ((updateNetworkStatus none none 0
          { gsm_status := 4, gprs_status := 0, eps_status := 0, eps_act := 0,
            tech := 0, lac := [], ci := [], registered := 0,
            registration_status_time := 0 }).tech ≠ 0 ↔
        GS_REG_OK ≤ (updateNetworkStatus none none 0
          { gsm_status := 4, gprs_status := 0, eps_status := 0, eps_act := 0,
            tech := 0, lac := [], ci := [], registered := 0,
            registration_status_time := 0 }).registered) := by
  decide

/-- C2 (amended): after every run of the network-status update,
`registered ≥ OK` implies the technology bitmask is non-empty (the
converse fails when only GSM is registered), and whenever the bitmask is
empty the LAC and CI strings are zero-length and `registered < OK`. -/
theorem update_network_status_tech_amended
    (s0 s1 : Option (List Char)) (now : Nat) (g : NetStatus) :
    (GS_REG_OK ≤ (updateNetworkStatus s0 s1 now g).registered →
      (updateNetworkStatus s0 s1 now g).tech ≠ 0)
    ∧ ((updateNetworkStatus s0 s1 now g).tech = 0 →
      (updateNetworkStatus s0 s1 now g).lac = []
      ∧ (updateNetworkStatus s0 s1 now g).ci = []
      ∧ (updateNetworkStatus s0 s1 now g).registered < GS_REG_OK) := by
  unfold updateNetworkStatus
  by_cases he : GS_REG_OK ≤ g.eps_status <;>
  by_cases hg : GS_REG_OK ≤ g.gprs_status <;>
  by_cases hm : GS_REG_OK ≤ g.gsm_status <;>
  by_cases h8 : g.eps_act = 8 <;>
  by_cases h9 : g.eps_act = 9 <;>
  simp +decide [he, hg, hm, h8, h9, GS_RAT_LTE, GS_RAT_LTE_M1, GS_RAT_LTE_NB1,
    GS_RAT_GPRS, GS_RAT_GSM]

/-- Witness for `update_network_status_tech_amended`: with EPS registered
the bitmask is non-empty; with nothing registered LAC and CI come out
empty and `registered < OK`. -/
theorem update_network_status_tech_amended_witness :
    (updateNetworkStatus none none 0
        { gsm_status := 0, gprs_status := 0, eps_status := 4, eps_act := 0,
          tech := 0, lac := [], ci := [], registered := 0,
          registration_status_time := 0 }).tech ≠ 0
    ∧ ((updateNetworkStatus none none 0
        { gsm_status := 0, gprs_status := 0, eps_status := 0, eps_act := 0,
          tech := 3, lac := ['a'], ci := ['b'], registered := 4,
          registration_status_time := 0 }).lac = []
      ∧ (updateNetworkStatus none none 0
        { gsm_status := 0, gprs_status := 0, eps_status := 0, eps_act := 0,
          tech := 3, lac := ['a'], ci := ['b'], registered := 4,
          registration_status_time := 0 }).ci = []
      ∧ (updateNetworkStatus none none 0
        { gsm_status := 0, gprs_status := 0, eps_status := 0, eps_act := 0,
          tech := 3, lac := ['a'], ci := ['b'], registered := 4,
          registration_status_time := 0 }).registered < GS_REG_OK) :=
  ⟨(update_network_status_tech_amended none none 0
      { gsm_status := 0, gprs_status := 0, eps_status := 4, eps_act := 0,
        tech := 0, lac := [], ci := [], registered := 0,
        registration_status_time := 0 }).1 (by decide),
   (update_network_status_tech_amended none none 0
      { gsm_status := 0, gprs_status := 0, eps_status := 0, eps_act := 0,
        tech := 3, lac := ['a'], ci := ['b'], registered := 4,
        registration_status_time := 0 }).2 (by decide)⟩

/-! ## Socket table (`GSocket`, header lines 23-36) -/

/-- Per-socket state. The 256-byte receive ring is modelled as its
contents function `rxbuf` plus `head` and `len` (as in the C struct);
flags are `Bool`, small enums stay `Nat` (`proto`: 6 = TCP, 17 = UDP;
`connected`: 0 idle, 1 connected, 2 failed). -/
structure GSocket where
  acquired : Bool
  proto : Nat
  to_be_closed : Bool
  secure : Bool
  connected : Nat
  bound : Bool
  rxbuf : Nat → Nat
  head : Nat
  len : Nat

/-- `_gs_socket_closing(id)` (bg96_ifc.c:3197-3206): mark the socket
to-be-closed (and signal its rx semaphore, not modelled). -/
def socketClosing (sock : GSocket) : GSocket :=
  { sock with to_be_closed := true }

/-- The ring-buffer invariant of the spec: `0 ≤ length ≤ capacity` (the
lower bound is inherent to `Nat`) and `head ∈ [0, capacity)`. -/
def ringInv (sock : GSocket) : Prop :=
  sock.len ≤ MAX_SOCK_RX_BUF ∧ sock.head < MAX_SOCK_RX_BUF

instance (sock : GSocket) : Decidable (ringInv sock) := by
  unfold ringInv; infer_instance

/-- The per-byte loop of `_gs_sock_copy` (bg96_ifc.c:2998-3001): copy
`rd` bytes out from `head`, advancing `head` modulo the capacity. -/
def sockCopyLoop : Nat → GSocket → List Nat × GSocket
  | 0, sock => ([], sock)
  | rd + 1, sock =>
    let b := sock.rxbuf sock.head
    let out := sockCopyLoop rd { sock with head := (sock.head + 1) % MAX_SOCK_RX_BUF }
    (b :: out.1, out.2)

/-- `_gs_sock_copy(id,buf,len)` (bg96_ifc.c:2987-3010): drain
`min(sock->len, len)` bytes from the ring into the caller's buffer;
afterwards decrease `len` and reset `head` when the ring became empty.
Returns the count, the bytes delivered, and the new socket state. -/
def sockCopy (sock : GSocket) (len : Nat) : Nat × List Nat × GSocket :=
  if 0 < sock.len then
    let rd := min sock.len len
    let out := sockCopyLoop rd sock
    let sock' := { out.2 with len := sock.len - rd }
    if sock.len - rd = 0 then (rd, out.1, { sock' with head := 0, len := 0 })
    else (rd, out.1, sock')
  else (0, [], sock)

/-- One iteration of the ring-fill loop of `_gs_exit_from_buffer_mode_r`
(bg96_ifc.c:2021-2027): write one byte at `(head + len) % MAX_SOCK_RX_BUF`
and increment `len` (the C code does not bound `len`). -/
def ringPush (sock : GSocket) (b : Nat) : GSocket :=
  let pos := (sock.head + sock.len) % MAX_SOCK_RX_BUF
  { sock with rxbuf := fun i => if i = pos then b else sock.rxbuf i, len := sock.len + 1 }

/-- The whole `while (max > len)` ring-fill loop: push each remaining
byte in order. -/
def ringPushN (sock : GSocket) (bs : List Nat) : GSocket :=
  match bs with
  | [] => sock
  | b :: rest => ringPushN (ringPush sock b) rest

/-- `_gs_exit_from_buffer_mode_r(buf,len,max,sock)` with a sink socket
and a non-NULL `buf` (the modelled call sites pass the caller's buffer),
restricted to its effect on the caller's buffer and the ring
(bg96_ifc.c:2010-2042): `len` is clamped to `max`; the guard
`if (buf && len)` makes the whole read a no-op when the clamped `len`
is zero; otherwise the first `len` incoming bytes go to the caller and
the remaining `max - len` are pushed into the ring. Returns the
delivered bytes and the new socket state. -/
def exitBufferModeR (len max : Nat) (incoming : List Nat) (sock : GSocket) :
    List Nat × GSocket :=
  let len' := min len max
  if len' = 0 then ([], sock)
  else (incoming.take len', ringPushN sock ((incoming.drop len').take (max - len')))

theorem sockCopyLoop_len (n : Nat) (sock : GSocket) :
    (sockCopyLoop n sock).2.len = sock.len := by
  induction n generalizing sock with
  | zero => rfl
  | succ k ih => simpa [sockCopyLoop] using ih _

theorem sockCopyLoop_head_lt (n : Nat) (sock : GSocket)
    (h : sock.head < MAX_SOCK_RX_BUF) :
    (sockCopyLoop n sock).2.head < MAX_SOCK_RX_BUF := by
  induction n generalizing sock with
  | zero => exact h
  | succ k ih =>
    simpa [sockCopyLoop] using ih _ (Nat.mod_lt _ (by decide))

theorem ringPushN_len (bs : List Nat) (sock : GSocket) :
    (ringPushN sock bs).len = sock.len + bs.length := by
  induction bs generalizing sock with
  | nil => rfl
  | cons b rest ih => simp [ringPushN, ih, ringPush]; omega

theorem ringPushN_head (bs : List Nat) (sock : GSocket) :
    (ringPushN sock bs).head = sock.head := by
  induction bs generalizing sock with
  | nil => rfl
  | cons b rest ih => simp [ringPushN, ih, ringPush]

/-- C6 (amended): the copy-out of buffered bytes (`_gs_sock_copy`)
preserves the ring invariant for every initial state satisfying it, and
the copy-in of a modem transfer's remainder
(`_gs_exit_from_buffer_mode_r`) preserves it provided the remainder fits
in the free space — the C loop increments `len` unboundedly, so without
that bound `length ≤ capacity` is violated (see the counterexample). -/
theorem ring_ops_preserve_invariant (sock : GSocket) (len max : Nat)
    (incoming : List Nat) (hinv : ringInv sock)
    (hfit : sock.len + (max - min len max) ≤ MAX_SOCK_RX_BUF) :
    ringInv (sockCopy sock len).2.2
    ∧ ringInv (exitBufferModeR len max incoming sock).2 := by
  obtain ⟨hlen, hhead⟩ := hinv
  constructor
  · unfold sockCopy ringInv
    by_cases h0 : 0 < sock.len
    · simp only [h0, if_true]
      by_cases hz : sock.len - min sock.len len = 0 <;>
        simp [hz, sockCopyLoop_len, sockCopyLoop_head_lt _ _ hhead] <;> omega
    · simpa [h0] using ⟨hlen, hhead⟩
  · unfold exitBufferModeR ringInv
    by_cases h0 : min len max = 0
    · simpa [h0] using ⟨hlen, hhead⟩
    · simp only [h0, if_neg, ite_false]
      refine ⟨?_, ?_⟩
      · rw [ringPushN_len]
        have := List.length_take_le (max - min len max) (incoming.drop (min len max))
        omega
      · simpa [ringPushN_head] using hhead

/-- Witness for `ring_ops_preserve_invariant` at a concrete socket state
and transfer. -/
theorem ring_ops_preserve_invariant_witness :
    ringInv (sockCopy
      { acquired := true, proto := 6, to_be_closed := false, secure := false,
        connected := 1, bound := false, rxbuf := fun _ => 0, head := 10, len := 5 } 3).2.2
    ∧ ringInv (exitBufferModeR 3 4 [1, 2, 3, 4]
      { acquired := true, proto := 6, to_be_closed := false, secure := false,
        connected := 1, bound := false, rxbuf := fun _ => 0, head := 10, len := 5 }).2 :=
  ring_ops_preserve_invariant
    { acquired := true, proto := 6, to_be_closed := false, secure := false,
      connected := 1, bound := false, rxbuf := fun _ => 0, head := 10, len := 5 }
    3 4 [1, 2, 3, 4] (by decide) (by decide)

/-- C6 (counterexample): the claim as stated — invariant preservation
for *every* advertised transfer count — fails: a ring holding 200 bytes
on a transfer of `len = 1`, `max = 101` (so the `if (buf && len)` guard
is passed and the fill loop runs 100 times) ends with
`len = 300 > 256`. -/
theorem ring_copy_in_overflow_counterexample :
    ringInv
      { acquired := true, proto := 6, to_be_closed := false, secure := false,
        connected := 1, bound := false, rxbuf := fun _ => 0, head := 0, len := 200 }
    ∧ ¬ ringInv (exitBufferModeR 1 101 (List.replicate 101 7)
      { acquired := true, proto := 6, to_be_closed := false, secure := false,
        connected := 1, bound := false, rxbuf := fun _ => 0, head := 0, len := 200 }).2 := by
  constructor
  · decide
  · unfold ringInv
    rw [exitBufferModeR, if_neg (by decide), ringPushN_len]
    simp +decide [MAX_SOCK_RX_BUF]

/-! ## Socket close (`_gs_do_close`, `_gs_socket_close_nolock`,
`_gs_socket_close`) -/

/-- `_gs_do_close(id)` (bg96_ifc.c:2677-2703): issue
`+QICLOSE=<id>,10` (or `+QSSLCLOSE`); `slotErr` abstracts the slot
completing with an error, in which case the result is -1 and the socket
is untouched; on success `connected` and `bound` are cleared. -/
def doClose (sock : GSocket) (slotErr : Bool) : Int × GSocket :=
  if slotErr then (-1, sock)
  else (0, { sock with connected := 0, bound := false })

/-- `_gs_socket_close_nolock(id)` (bg96_ifc.c:2705-2715): if the socket
is not acquired, do nothing and return 0; otherwise run the close and
release the index regardless of the error. -/
def socketCloseNolock (sock : GSocket) (slotErr : Bool) : Int × GSocket :=
  if !sock.acquired then (0, sock)
  else
    let r := doClose sock slotErr
    (r.1, { r.2 with acquired := false })

/-- `_gs_socket_close(id)` (bg96_ifc.c:2725-2736): takes the socket
lock, runs the nolock close with its result discarded (the commented-out
`/*res =*/`), and always returns the initial `res = 0`. -/
def socketClose (sock : GSocket) (slotErr : Bool) : Int × GSocket :=
  (0, (socketCloseNolock sock slotErr).2)

/-- C9: socket close is idempotent — the first close always leaves the
acquired flag cleared, and a second close of the same socket changes no
socket state and returns success (0), whatever the slot outcomes. -/
theorem socket_close_idempotent (sock : GSocket) (e1 e2 : Bool) :
    socketClose (socketClose sock e1).2 e2 = (0, (socketClose sock e1).2)
    ∧ (socketClose sock e1).2.acquired = false := by
  cases hacq : sock.acquired <;> cases e1 <;>
    simp [socketClose, socketCloseNolock, doClose, hacq]

/-! ## Keepalive probe (`_gs_socket_isalive`, bg96_ifc.c:2803-2864) -/

/-- Outcome of the `+QISEND=<id>,0` probe as seen by
`_gs_socket_isalive`: the slot errored, the response did not start with
`+QISEND`, the `(total, acked, unacked)` triple failed to parse, or the
triple parsed. -/
inductive ProbeResult where
  | slotErr : ProbeResult
  | badResp : ProbeResult
  | parseFail : ProbeResult
  | triple (tot ack unack : Nat) : ProbeResult

/-- Result of `_gs_socket_isalive`: the boolean it returns and whether
the `+QISEND=<id>,0` probe was issued (slot acquired and AT line sent). -/
structure IsaliveOut where
  res : Bool
  probed : Bool

/-- `_gs_socket_isalive(id)` (bg96_ifc.c:2803-2864): an
already-to-be-closed socket is reported alive; a secure socket is
reported alive without any probe (`QSSLSEND` has no keepalive form);
otherwise `+QISEND=<id>,0` is issued and the socket is dead exactly when
the triple parses with `unacked > MAX_UNACKED_DATA`, or fails to parse;
slot errors and foreign responses are treated as alive. -/
def socketIsalive (sock : GSocket) (pr : ProbeResult) : IsaliveOut :=
  if sock.to_be_closed then ⟨true, false⟩
  else if sock.secure then ⟨true, false⟩
  else
    match pr with
    | .slotErr => ⟨true, true⟩
    | .badResp => ⟨true, true⟩
    | .parseFail => ⟨false, true⟩
    | .triple _tot _ack unack => ⟨decide (unack ≤ MAX_UNACKED_DATA), true⟩

/-- The keepalive step of `_gs_socket_recv` (bg96_ifc.c:3097-3106), run
when the 30-second wait on the rx semaphore times out: if the socket is
not alive or the network has been unregistered too long, mark it
to-be-closed. -/
def recvKeepaliveStep (sock : GSocket) (pr : ProbeResult) (unregTooLong : Bool) : GSocket :=
  if (socketIsalive sock pr).res = false ∨ unregTooLong then socketClosing sock else sock

/-- C3: when a blocked receive on a non-secure TCP socket (not already
marked to-be-closed) times out and the probe's `(total, acked, unacked)`
triple parses, the socket ends up marked to-be-closed exactly when
`unacked > 1500` or the unregistered-too-long predicate holds, and the
`+QISEND=<id>,0` probe was issued; a secure socket is always reported
alive and never probed. -/
theorem recv_keepalive_isalive (sock : GSocket) (tot ack unack : Nat)
    (unregTooLong : Bool) (pr : ProbeResult)
    (htbc : sock.to_be_closed = false) :
    (sock.secure = false →
      ((recvKeepaliveStep sock (.triple tot ack unack) unregTooLong).to_be_closed = true
        ↔ (MAX_UNACKED_DATA < unack ∨ unregTooLong = true))
      ∧ (socketIsalive sock (.triple tot ack unack)).probed = true)
    ∧ (sock.secure = true →
      (socketIsalive sock pr).res = true ∧ (socketIsalive sock pr).probed = false) := by
  constructor
  · intro hsec
    constructor
    · by_cases hu : MAX_UNACKED_DATA < unack <;> cases unregTooLong <;>
        simp [recvKeepaliveStep, socketIsalive, socketClosing, htbc, hsec, hu]
    · simp [socketIsalive, htbc, hsec]
  · intro hsec
    cases pr <;> simp [socketIsalive, htbc, hsec]

/-- Witness for `recv_keepalive_isalive`: the spec's scenario — probe
returns `unacked = 2000 > 1500`, the socket gets marked to-be-closed. -/
theorem recv_keepalive_isalive_witness :
    ((false = false →
      ((recvKeepaliveStep
          { acquired := true, proto := 6, to_be_closed := false, secure := false,
            connected := 1, bound := false, rxbuf := fun _ => 0, head := 0, len := 0 }
          (.triple 2000 0 2000) false).to_be_closed = true
        ↔ (MAX_UNACKED_DATA < 2000 ∨ false = true))
      ∧ (socketIsalive
          { acquired := true, proto := 6, to_be_closed := false, secure := false,
            connected := 1, bound := false, rxbuf := fun _ => 0, head := 0, len := 0 }
          (.triple 2000 0 2000)).probed = true)
    ∧ (false = true →
      (socketIsalive
          { acquired := true, proto := 6, to_be_closed := false, secure := false,
            connected := 1, bound := false, rxbuf := fun _ => 0, head := 0, len := 0 }
          ProbeResult.slotErr).res = true
      ∧ (socketIsalive
          { acquired := true, proto := 6, to_be_closed := false, secure := false,
            connected := 1, bound := false, rxbuf := fun _ => 0, head := 0, len := 0 }
          ProbeResult.slotErr).probed = false))
    ∧ (recvKeepaliveStep
          { acquired := true, proto := 6, to_be_closed := false, secure := false,
            connected := 1, bound := false, rxbuf := fun _ => 0, head := 0, len := 0 }
          (.triple 2000 0 2000) false).to_be_closed = true :=
  have h := recv_keepalive_isalive
    { acquired := true, proto := 6, to_be_closed := false, secure := false,
      connected := 1, bound := false, rxbuf := fun _ => 0, head := 0, len := 0 }
    2000 0 2000 false ProbeResult.slotErr rfl
  ⟨h, ((h.1 rfl).1).mpr (Or.inl (by decide))⟩

/-! ## Send (`_gs_socket_send`, bg96_ifc.c:2753-2801) -/

/-- The 9 bytes compared by `memcmp(slot->resp, "SEND FAIL", 9)`
(bg96_ifc.c:2786). -/
def SEND_FAIL : List Char := "SEND FAIL".toList

/-- `_gs_socket_send(id,buf,len)` for a socket holding `len` payload
bytes. `promptOk` abstracts `_gs_wait_for_slot_mode` succeeding (prompt
mode entered within 10 s; it returns 0 on success, -1 otherwise),
`slotErr` the slot completing with an error, `resp` the slot's final
response line, `unregTooLong` the network predicate. Mirrors the control
flow: closed-socket guard, to-be-closed guard, prompt wait, slot wait,
`SEND FAIL` check, forced closing on network loss. -/
def socketSend (sock : GSocket) (len : Nat) (promptOk slotErr : Bool)
    (resp : List Char) (unregTooLong : Bool) : Int × GSocket :=
  if ¬(sock.connected = 1 ∧ sock.acquired = true) then (ERR_CONN, sock)
  else if sock.to_be_closed then (-1, sock)
  else
    -- res = _gs_wait_for_slot_mode(...); if (res) keep it; else res = len
    let res0 : Int := if promptOk then (len : Int) else -1
    if slotErr then (-1, socketClosing sock)
    else
      let res1 : Int := if SEND_FAIL.isPrefixOf resp then 0 else res0
      (res1, if unregTooLong then socketClosing sock else sock)

/-- C4: for an open socket not already marked to-be-closed whose prompt
arrives, a TCP send returns 0 when the final response line begins with
`SEND FAIL`, returns -1 and marks the socket to-be-closed when the slot
completes with an error, and returns the requested `len` otherwise. -/
theorem socket_send_result (sock : GSocket) (len : Nat) (slotErr : Bool)
    (resp : List Char) (unregTooLong : Bool)
    (hconn : sock.connected = 1) (hacq : sock.acquired = true)
    (htbc : sock.to_be_closed = false) :
    (slotErr = true →
      (socketSend sock len true slotErr resp unregTooLong).1 = -1
      ∧ (socketSend sock len true slotErr resp unregTooLong).2.to_be_closed = true)
    ∧ (slotErr = false → SEND_FAIL.isPrefixOf resp = true →
      (socketSend sock len true slotErr resp unregTooLong).1 = 0)
    ∧ (slotErr = false → SEND_FAIL.isPrefixOf resp = false →
      (socketSend sock len true slotErr resp unregTooLong).1 = len) := by
  refine ⟨fun he => ?_, fun he hf => ?_, fun he hf => ?_⟩ <;> subst he
  · cases unregTooLong <;> simp [socketSend, socketClosing, hconn, hacq, htbc]
  · rw [List.isPrefixOf_iff_prefix] at hf
    cases unregTooLong <;> simp [socketSend, socketClosing, hconn, hacq, htbc, hf]
  · have hf' : ¬ (SEND_FAIL <+: resp) := by
      simpa [← List.isPrefixOf_iff_prefix] using hf
    cases unregTooLong <;> simp [socketSend, socketClosing, hconn, hacq, htbc, hf']

/-- Witness for `socket_send_result` on a concrete open socket: slot
error gives (-1, to-be-closed), a `SEND FAIL` line gives 0, a normal
completion returns the requested length 42. -/
theorem socket_send_result_witness :
    ((socketSend
        { acquired := true, proto := 6, to_be_closed := false, secure := false,
          connected := 1, bound := false, rxbuf := fun _ => 0, head := 0, len := 0 }
        42 true true [] false).1 = -1
      ∧ (socketSend
        { acquired := true, proto := 6, to_be_closed := false, secure := false,
          connected := 1, bound := false, rxbuf := fun _ => 0, head := 0, len := 0 }
        42 true true [] false).2.to_be_closed = true)
    ∧ (socketSend
        { acquired := true, proto := 6, to_be_closed := false, secure := false,
          connected := 1, bound := false, rxbuf := fun _ => 0, head := 0, len := 0 }
        42 true false ("SEND FAIL".toList) false).1 = 0
    ∧ (socketSend
        { acquired := true, proto := 6, to_be_closed := false, secure := false,
          connected := 1, bound := false, rxbuf := fun _ => 0, head := 0, len := 0 }
        42 true false ("SEND OK".toList) false).1 = 42 :=
  ⟨(socket_send_result _ 42 true [] false rfl rfl rfl).1 rfl,
   (socket_send_result _ 42 false ("SEND FAIL".toList) false rfl rfl rfl).2.1 rfl (by decide),
   (socket_send_result _ 42 false ("SEND OK".toList) false rfl rfl rfl).2.2 rfl (by decide)⟩

/-! ## Available / receive (`_gs_socket_available_nolock`,
`_gs_socket_recv`, bg96_ifc.c:3122-3195 and 3012-3109) -/

/-- Modem-side outcome of the `+QIRD=<id>,0` zero-length query in the
TCP branch of `_gs_socket_available_nolock`: whether BUFFER mode was
entered within 10 s, the parsed `(total_received, already_read,
to_be_read)` triple (or a parse failure), and whether the slot finished
with an error. -/
structure TcpQuery where
  bufOk : Bool
  parsed : Option (Nat × Nat × Nat)
  slotErr : Bool

/-- Modem-side outcome of the `+QSSLRECV=<id>,MAX_SOCK_RX_LEN` peek in
the secure branch: the parsed advertised count, the bytes that follow in
BUFFER mode, and the slot outcome. (A BUFFER-mode timeout sets
`ERR_TIMEOUT`, but the source parses unconditionally right after and
both parse outcomes overwrite it, so `bufOk` cannot affect the result.) -/
structure SslQuery where
  bufOk : Bool
  parsed : Option Nat
  slotErr : Bool
  incoming : List Nat

/-- `_gs_socket_available_nolock(id)` (bg96_ifc.c:3122-3195): ring bytes
first; `ERR_CLSD` if the socket is to-be-closed; otherwise for secure
sockets peek via `+QSSLRECV` and stash the advertised bytes at the start
of the ring, for plain TCP ask `+QIRD=<id>,0` and report `to_be_read`;
a slot error yields `ERR_IF`; finally a zero result on a to-be-closed
socket is turned into `ERR_CLSD`. -/
def socketAvailableNolock (sock : GSocket) (q : TcpQuery) (sq : SslQuery) : Int × GSocket :=
  if 0 < sock.len then ((sock.len : Int), sock)
  else if sock.to_be_closed then (ERR_CLSD, sock)
  else
    let out : Int × GSocket :=
      if sock.secure then
        match sq.parsed with
        | some rd =>
          if 0 < rd then
            ((rd : Int),
             { sock with
               head := 0
               len := rd
               rxbuf := fun i => if i < rd then sq.incoming.getD i 0 else sock.rxbuf i })
          else (0, sock)
        | none => (ERR_IF, sock)
      else
        (if ¬ q.bufOk then ERR_TIMEOUT
         else
           match q.parsed with
           | some (_total, _rd, toberd) => (toberd : Int)
           | none => -1,
         sock)
    let res : Int := if (if sock.secure then sq.slotErr else q.slotErr) then ERR_IF else out.1
    (if res = 0 ∧ sock.to_be_closed then ERR_CLSD else res, out.2)

/-- Modem-side outcome of the `+QIRD=<id>,MAX_SOCK_RX_LEN` transfer in
`_gs_socket_recv`: the advertised byte count `rd` (or parse failure),
the bytes read in BUFFER mode, and the slot outcome. (As in the secure
peek, a BUFFER-mode timeout is overwritten by both parse outcomes.) -/
structure TransferQuery where
  bufOk : Bool
  parsed : Option Nat
  slotErr : Bool
  incoming : List Nat

/-- Result of `_gs_socket_recv`: return value, final socket state, and
the bytes placed in the caller's buffer. -/
structure RecvOut where
  res : Int
  sock : GSocket
  delivered : List Nat

/-- `_gs_socket_recv(id,buf,len)` (bg96_ifc.c:3012-3083, the part up to
releasing the lock): open-socket guard; drain the ring (`_gs_sock_copy`)
and return those bytes if any; otherwise consult
`_gs_socket_available_nolock`; on `avail <= 0` return `ERR_CLSD` iff the
socket is to-be-closed, else 0; on a positive count for a secure socket
the data is already in the ring (`goto recv_from_buf` — re-drain; the C
loop terminates whenever `len > 0`), and for plain TCP run the
`+QIRD` transfer, delivering `min(len, rd)` bytes and pushing the
remainder into the ring (UDP then flushes the ring). -/
def socketRecv (sock : GSocket) (len : Nat) (q : TcpQuery) (sq : SslQuery)
    (t : TransferQuery) : RecvOut :=
  if ¬(sock.connected = 1 ∧ sock.acquired = true) then ⟨ERR_CONN, sock, []⟩
  else
    let c := sockCopy sock len
    if 0 < c.1 then ⟨(c.1 : Int), c.2.2, c.2.1⟩
    else
      let av := socketAvailableNolock c.2.2 q sq
      if av.1 ≤ 0 then
        if av.2.to_be_closed then ⟨ERR_CLSD, av.2, []⟩ else ⟨0, av.2, []⟩
      else
        if av.2.secure then
          let c2 := sockCopy av.2 len
          ⟨(c2.1 : Int), c2.2.2, c2.2.1⟩
        else
          match t.parsed with
          | some rd =>
            let res := min len rd
            let e := exitBufferModeR res rd t.incoming av.2
            let s2 := if av.2.proto = 17 then { e.2 with head := 0, len := 0 } else e.2
            ⟨(if t.slotErr then ERR_IF else (res : Int)), s2, e.1⟩
          | none => ⟨ERR_IF, av.2, []⟩

theorem sockCopy_eq_zero (sock : GSocket) (len : Nat) (hlen : 0 < len)
    (h : (sockCopy sock len).1 = 0) : sock.len = 0 ∧ sockCopy sock len = (0, [], sock) := by
  by_cases h0 : 0 < sock.len
  · exfalso
    unfold sockCopy at h
    by_cases hz : sock.len - min sock.len len = 0 <;> simp [h0, hz] at h <;> omega
  · have hsl : sock.len = 0 := by omega
    exact ⟨hsl, by simp [sockCopy, hsl]⟩

theorem socketAvailableNolock_to_be_closed (sock : GSocket) (q : TcpQuery) (sq : SslQuery) :
    (socketAvailableNolock sock q sq).2.to_be_closed = sock.to_be_closed := by
  unfold socketAvailableNolock
  split_ifs <;> try rfl
  all_goals cases hp : sq.parsed <;> (simp [hp]; try (split_ifs <;> rfl))

theorem socketAvailableNolock_secure (sock : GSocket) (q : TcpQuery) (sq : SslQuery) :
    (socketAvailableNolock sock q sq).2.secure = sock.secure := by
  unfold socketAvailableNolock
  split_ifs <;> try rfl
  all_goals cases hp : sq.parsed <;> (simp [hp]; try (split_ifs <;> rfl))

/-- C5: an open receive first drains the ring via the circular copy and,
when that yields a positive count, returns exactly those bytes;
otherwise it asks `_gs_socket_available_nolock`, returning the closed
error when the to-be-closed flag is set, and 0 (caller waits) when the
flag is clear and the modem reports zero available bytes. -/
theorem socket_recv_drain_then_query (sock : GSocket) (len : Nat)
    (q : TcpQuery) (sq : SslQuery) (t : TransferQuery)
    (hconn : sock.connected = 1) (hacq : sock.acquired = true) (hlen : 0 < len) :
    (0 < (sockCopy sock len).1 →
      socketRecv sock len q sq t =
        ⟨((sockCopy sock len).1 : Int), (sockCopy sock len).2.2, (sockCopy sock len).2.1⟩)
    ∧ ((sockCopy sock len).1 = 0 → sock.to_be_closed = true →
      (socketRecv sock len q sq t).res = ERR_CLSD)
    ∧ ((sockCopy sock len).1 = 0 → sock.to_be_closed = false →
      (socketAvailableNolock sock q sq).1 = 0 →
      (socketRecv sock len q sq t).res = 0) := by
  refine ⟨fun hpos => ?_, fun hz htbc => ?_, fun hz htbc hav => ?_⟩
  · simp [socketRecv, hconn, hacq, hpos]
  · obtain ⟨hsl, hc⟩ := sockCopy_eq_zero sock len hlen hz
    have hav : socketAvailableNolock sock q sq = (ERR_CLSD, sock) := by
      simp [socketAvailableNolock, hsl, htbc]
    simp [socketRecv, hconn, hacq, hc, hav, htbc, ERR_CLSD]
  · obtain ⟨hsl, hc⟩ := sockCopy_eq_zero sock len hlen hz
    have htb2 := socketAvailableNolock_to_be_closed sock q sq
    rw [htbc] at htb2
    simp [socketRecv, hconn, hacq, hc, hav, htb2]

/-- Witness for `socket_recv_drain_then_query`: a ring holding two bytes
is drained and returned; an empty ring on a to-be-closed socket yields
`ERR_CLSD`; an empty ring with the modem reporting zero yields 0. -/
theorem socket_recv_drain_then_query_witness :
    (socketRecv
      { acquired := true, proto := 6, to_be_closed := false, secure := false,
        connected := 1, bound := false, rxbuf := fun i => 40 + i, head := 0, len := 2 }
      5 ⟨true, some (0, 0, 0), false⟩ ⟨true, none, false, []⟩ ⟨true, none, false, []⟩).res = 2
    ∧ (socketRecv
      { acquired := true, proto := 6, to_be_closed := true, secure := false,
        connected := 1, bound := false, rxbuf := fun _ => 0, head := 0, len := 0 }
      5 ⟨true, some (0, 0, 0), false⟩ ⟨true, none, false, []⟩ ⟨true, none, false, []⟩).res = ERR_CLSD
    ∧ (socketRecv
      { acquired := true, proto := 6, to_be_closed := false, secure := false,
        connected := 1, bound := false, rxbuf := fun _ => 0, head := 0, len := 0 }
      5 ⟨true, some (7, 7, 0), false⟩ ⟨true, none, false, []⟩ ⟨true, none, false, []⟩).res = 0 := by
  refine ⟨?_, ?_, ?_⟩
  · rw [(socket_recv_drain_then_query
      { acquired := true, proto := 6, to_be_closed := false, secure := false,
        connected := 1, bound := false, rxbuf := fun i => 40 + i, head := 0, len := 2 }
      5 ⟨true, some (0, 0, 0), false⟩ ⟨true, none, false, []⟩ ⟨true, none, false, []⟩
      rfl rfl (by decide)).1 (by decide)]
    decide
  · exact (socket_recv_drain_then_query
      { acquired := true, proto := 6, to_be_closed := true, secure := false,
        connected := 1, bound := false, rxbuf := fun _ => 0, head := 0, len := 0 }
      5 ⟨true, some (0, 0, 0), false⟩ ⟨true, none, false, []⟩ ⟨true, none, false, []⟩
      rfl rfl (by decide)).2.1 (by decide) (by decide)
  · exact (socket_recv_drain_then_query
      { acquired := true, proto := 6, to_be_closed := false, secure := false,
        connected := 1, bound := false, rxbuf := fun _ => 0, head := 0, len := 0 }
      5 ⟨true, some (7, 7, 0), false⟩ ⟨true, none, false, []⟩ ⟨true, none, false, []⟩
      rfl rfl (by decide)).2.2 (by decide) (by decide) (by decide)

/-! ## Number parsing (`_gs_parse_number`) — the repository carries two
different implementations: bg96_ifc.c:1398-1428 (signed, a space after a
digit ends the number) and bg96.c:390-400 (unsigned, spaces are skipped
everywhere). -/

/-- The loop of `_gs_parse_number` in bg96_ifc.c:1398-1428, carrying the
accumulator, the `found` flag and the sign. Digits accumulate; `-` is
rejected after anything was found, otherwise sets the sign; a space
breaks the number once something was found and is skipped before; CR/LF
break on success and fail otherwise; any other byte fails. On success
returns the value and the rest of the buffer (the returned pointer). -/
def parseNumAux : List Char → Int → Bool → Int → Option (Int × List Char)
  | [], res, _found, sign => some (res * sign, [])
  | c :: rest, res, found, sign =>
    if '0' ≤ c ∧ c ≤ '9' then parseNumAux rest (res * 10 + ((c.toNat : Int) - 48)) true sign
    else if c = '-' then
      if found then none else parseNumAux rest res true (-1)
    else if c = ' ' then
      if found then some (res * sign, c :: rest) else parseNumAux rest res found sign
    else if c = '\r' ∨ c = '\n' then
      if found then some (res * sign, c :: rest) else none
    else none

/-- `_gs_parse_number(buf,ebuf,result)` of bg96_ifc.c. -/
def parseNumber (buf : List Char) : Option (Int × List Char) :=
  parseNumAux buf 0 false 1

/-- The value stored through the `result` out-parameter. -/
def parseNumberVal (buf : List Char) : Option Int :=
  (parseNumber buf).map (fun p => p.1)

/-- The loop of `_gs_parse_number` in bg96.c:390-400: digits accumulate,
`' '`/CR/LF are skipped wherever they appear ("33 44" is parsed as
3344), any other byte — including `-` — fails. -/
def parseNumAltAux : List Char → Int → Option Int
  | [], res => some res
  | c :: rest, res =>
    if '0' ≤ c ∧ c ≤ '9' then parseNumAltAux rest (res * 10 + ((c.toNat : Int) - 48))
    else if c = ' ' ∨ c = '\r' ∨ c = '\n' then parseNumAltAux rest res
    else none

/-- `_gs_parse_number(buf,ebuf,result)` of bg96.c. -/
def parseNumberAlt (buf : List Char) : Option Int :=
  parseNumAltAux buf 0

/-- The base-10 value of a digit string, folded like both C loops. -/
def digitsVal (ds : List Char) : Int :=
  ds.foldl (fun a c => a * 10 + ((c.toNat : Int) - 48)) 0

/-- C7 (counterexample): no single extractor in the repository both
negates on a leading `-` and joins digits across spaces. The bg96_ifc.c
parser stops at the space, yielding 33 (not 3344) on "33 44"; the bg96.c
parser does yield 3344 there but rejects "-33" outright. -/
theorem parse_number_claim_counterexample :
    parseNumberVal ("33 44".toList) = some 33
    ∧ (33 : Int) ≠ 3344
    ∧ parseNumberVal ("-33".toList) = some (-33)
    ∧ parseNumberAlt ("33 44".toList) = some 3344
    ∧ parseNumberAlt ("-33".toList) = none := by
  decide

theorem parseNumAux_digits_space (ds tail : List Char) (res sign : Int)
    (hd : ∀ c ∈ ds, '0' ≤ c ∧ c ≤ '9') :
    parseNumAux (ds ++ ' ' :: tail) res true sign =
      some ((ds.foldl (fun a c => a * 10 + ((c.toNat : Int) - 48)) res) * sign,
        ' ' :: tail) := by
  induction ds generalizing res with
  | nil => simp [parseNumAux]
  | cons c ds ih =>
    have hc := hd c (by simp)
    have hnd : ¬ ('0' ≤ ' ' ∧ ' ' ≤ '9') := by decide
    simp only [List.cons_append, parseNumAux, hc, and_self, if_true, List.foldl_cons]
    exact ih _ (fun x hx => hd x (by simp [hx]))

theorem parseNumAux_digits_end (ds : List Char) (res sign : Int)
    (hd : ∀ c ∈ ds, '0' ≤ c ∧ c ≤ '9') :
    parseNumAux ds res true sign =
      some ((ds.foldl (fun a c => a * 10 + ((c.toNat : Int) - 48)) res) * sign, []) := by
  induction ds generalizing res with
  | nil => simp [parseNumAux]
  | cons c ds ih =>
    have hc := hd c (by simp)
    simp only [parseNumAux, hc, and_self, if_true, List.foldl_cons]
    exact ih _ (fun x hx => hd x (by simp [hx]))

/-- C7 (amended): the integer element kind of the bg96_ifc.c extractor
parses signed decimal integers — a leading `-` yields the negated value
— but a space *after* a digit terminates the number instead of being
joined, so "33 44" parses as 33 (the bg96.c variant instead joins
"33 44" to 3344 and rejects `-`). -/
theorem parse_number_signed_space_terminates (ds tail : List Char)
    (hne : ds ≠ []) (hd : ∀ c ∈ ds, '0' ≤ c ∧ c ≤ '9') :
    parseNumberVal (ds ++ ' ' :: tail) = some (digitsVal ds)
    ∧ parseNumberVal ('-' :: ds) = some (-(digitsVal ds)) := by
  obtain ⟨c, ds', rfl⟩ : ∃ c ds', ds = c :: ds' := by
    cases ds with
    | nil => exact absurd rfl hne
    | cons c ds' => exact ⟨c, ds', rfl⟩
  have hc := hd c (by simp)
  constructor
  · unfold parseNumberVal parseNumber
    simp only [List.cons_append, List.append_eq, parseNumAux, hc, and_self, if_true]
    rw [parseNumAux_digits_space ds' tail _ 1 (fun x hx => hd x (by simp [hx]))]
    simp [digitsVal]
  · unfold parseNumberVal parseNumber
    simp only [parseNumAux, hc, and_self, if_true, reduceCtorEq, reduceIte]
    rw [parseNumAux_digits_end ds' _ (-1) (fun x hx => hd x (by simp [hx]))]
    simp [digitsVal]

/-- Witness for `parse_number_signed_space_terminates` at "33 44" and
"-33". -/
theorem parse_number_signed_space_terminates_witness :
    parseNumberVal (['3', '3'] ++ ' ' :: ['4', '4']) = some (digitsVal ['3', '3'])
    ∧ parseNumberVal ('-' :: ['3', '3']) = some (-(digitsVal ['3', '3'])) :=
  parse_number_signed_space_terminates ['3', '3'] ['4', '4'] (by decide) (by decide)

/-! ## GNSS course-over-ground conversion (`_gs_gnss_loc`,
bg96_ifc.c:4181-4239, line 4221) -/

/-- The C cast `(int)x`: truncation toward zero, modelling
`(int)loc->cog`. -/
def ctrunc (q : ℚ) : ℤ := if 0 ≤ q then ⌊q⌋ else -⌊-q⌋

/-- What bg96_ifc.c:4221 stores (identically bg96.c:2116):
`loc->cog = (int)loc->cog + ((loc->cog - (int)loc->cog) * 10 / 60)`,
annotated "from deg.min to decimal degrees". Exact rational arithmetic
stands in for the C `double`s — the discrepancy below is far above any
rounding. -/
def gnssCogStored (cog : ℚ) : ℚ :=
  (ctrunc cog : ℚ) + (cog - (ctrunc cog : ℚ)) * 10 / 60

/-- Modelled from the spec: the decimal-degrees value the spec requires,
`cog_dec = int(cog) + (cog − int(cog)) * 10/6` — the correct
`deg.minutes` conversion, which is also what the code comment on line
4221 announces. -/
def specCogDecimal (cog : ℚ) : ℚ :=
  (ctrunc cog : ℚ) + (cog - (ctrunc cog : ℚ)) * 10 / 6

/-- C8: at `cog = 10.30` (10 degrees 30 minutes) the code stores
10.05 where the spec's conversion gives 10.5 — the source divides the
minute fraction by 60 instead of multiplying by 10/6, contradicting its
own "from deg.min to decimal degrees" comment. -/
theorem gnss_cog_divergence :
    gnssCogStored (103/10) = 201/20
    ∧ specCogDecimal (103/10) = 21/2
    ∧ gnssCogStored (103/10) ≠ specCogDecimal (103/10) := by
  have h : ctrunc (103/10) = 10 := by
    rw [ctrunc, if_pos (by norm_num)]
    norm_num [Int.floor_eq_iff]
  refine ⟨?_, ?_, ?_⟩
  · rw [gnssCogStored, h]; norm_num
  · rw [specCogDecimal, h]; norm_num
  · rw [gnssCogStored, specCogDecimal, h]; norm_num

/-! ## URC handling (`_gs_handle_urc`, bg96_ifc.c:1766-1870) with the
socket array indexed totally -/

/-- The delimiter pattern `",\r\n"` of `_gs_parse_command_arguments`. -/
def URC_DELIMS : List Char := [',', '\r', '\n']

/-- `_gs_advance_to(buf,ebuf,pattern)` (bg96_ifc.c:1343-1356): scan for
the first byte contained in `pattern`; return the bytes before it and
the suffix starting at it, or `none` when no delimiter occurs. -/
def advanceTo : List Char → List Char → Option (List Char × List Char)
  | [], _pat => none
  | c :: rest, pat =>
    if c ∈ pat then some ([], c :: rest)
    else
      match advanceTo rest pat with
      | some (pre, suf) => some (c :: pre, suf)
      | none => none

/-- `_gs_parse_command_arguments(buf,ebuf,"si",...)` as used by the
`"closed"`/`"recv"` arms of `_gs_handle_urc`: first parameter is the
slice up to the first delimiter, then the integer parameter is parsed by
`_gs_parse_number` over the slice up to the next delimiter. -/
def parseArgsSI (buf : List Char) : Option (List Char × Int) :=
  match advanceTo buf URC_DELIMS with
  | none => none
  | some (p1, rest) =>
    match rest with
    | [] => none
    | _d :: rest2 =>
      match advanceTo rest2 URC_DELIMS with
      | none => none
      | some (p2, _) =>
        match parseNumberVal p2 with
        | some v => some (p1, v)
        | none => none

/-- `_gs_parse_command_arguments(buf,ebuf,"ii",...)` as used by the
`+QIOPEN`/`+QSSLOPEN` URC arm. -/
def parseArgsII (buf : List Char) : Option (Int × Int) :=
  match advanceTo buf URC_DELIMS with
  | none => none
  | some (p1, rest) =>
    match parseNumberVal p1 with
    | none => none
    | some v1 =>
      match rest with
      | [] => none
      | _d :: rest2 =>
        match advanceTo rest2 URC_DELIMS with
        | none => none
        | some (p2, _) =>
          match parseNumberVal p2 with
          | some v2 => some (v1, v2)
          | none => none

/-- `_gs_socket_opened(id,success)` (bg96_ifc.c:2503-2513) on one
socket: set `connected` to 1 on success, 2 on failure. -/
def socketOpened (sock : GSocket) (success : Bool) : GSocket :=
  if success then { sock with connected := 1 } else { sock with connected := 2 }

/-- The `sock = &gs_sockets[id]` indexing of `_gs_socket_closing` made
total: the C code applies the modem-supplied id with no bounds check, so
ids outside `[0, MAX_SOCKS)` fall into the `none` branch. -/
def socketClosingAt (socks : List GSocket) (id : Int) : Option (List GSocket) :=
  if h : 0 ≤ id ∧ id.toNat < socks.length then
    some (socks.set id.toNat (socketClosing (socks.get ⟨id.toNat, h.2⟩)))
  else none

/-- The `sock = &gs_sockets[id]` indexing of `_gs_socket_opened` made
total, as in `socketClosingAt`. -/
def socketOpenedAt (socks : List GSocket) (id : Int) (success : Bool) :
    Option (List GSocket) :=
  if h : 0 ≤ id ∧ id.toNat < socks.length then
    some (socks.set id.toNat (socketOpened (socks.get ⟨id.toNat, h.2⟩) success))
  else none

/-- The `"closed"` arm of `_gs_handle_urc` (bg96_ifc.c:1786-1794): parse
`"si"`, and when the first parameter is the 8 bytes `"closed"` (with
quotes), run `_gs_socket_closing` on the parsed id. Other names and
parse failures leave the table unchanged here. -/
def handleUrcClosed (socks : List GSocket) (payload : List Char) :
    Option (List GSocket) :=
  match parseArgsSI payload with
  | some (name, id) =>
    if name = "\"closed\"".toList then socketClosingAt socks id else some socks
  | none => some socks

/-- The `+QIOPEN`/`+QSSLOPEN` URC arm (bg96_ifc.c:1772-1785): parse
`"ii"` into (socket id, status) and run `_gs_socket_opened(id, status
== 0)`; a parse failure (`nargs != 2`) has no side effect. -/
def handleUrcOpen (socks : List GSocket) (payload : List Char) :
    Option (List GSocket) :=
  match parseArgsII payload with
  | some (p0, p1) => socketOpenedAt socks p0 (p1 = 0)
  | none => some socks

/-- The socket table at rest: `MAX_SOCKS` idle sockets. -/
def initSocks : List GSocket :=
  List.replicate MAX_SOCKS
    { acquired := false, proto := 0, to_be_closed := false, secure := false,
      connected := 0, bound := false, rxbuf := fun _ => 0, head := 0, len := 0 }

/-- C10: the URC handlers index the socket array with the
modem-supplied id and no bounds check; in the total embedding the
lookups return `Option` and the `none` branch is reachable: the URC
`"closed",7` (id 7 ≥ MAX_SOCKS = 4) and the open-URC `5,0` both hit it,
while in-range ids (2 and 1) succeed. -/
theorem urc_socket_index_unchecked :
    (handleUrcClosed initSocks ("\"closed\",7\r\n".toList)).isNone = true
    ∧ (handleUrcClosed initSocks ("\"closed\",2\r\n".toList)).isSome = true
    ∧ (handleUrcOpen initSocks ("5,0\r\n".toList)).isNone = true
    ∧ (handleUrcOpen initSocks ("1,0\r\n".toList)).isSome = true := by
  decide

end BG96
